import Mathlib

/-!
Verification development for the voice-agent repository.

The repository ships a Postgres schema (supabase/schema.sql), a React
frontend (frontend/src), and documentation describing a FastAPI backend.
The backend itself (Call Registry, Webhook Ingest, Extraction Reconciler,
Config Registry) is not part of the supplied sources; where a property
depends on it, the corresponding definition is modelled from the spec and
carries a doc comment saying so.  Everything else is translated directly
from the schema and the frontend sources.
-/

namespace VoiceAgent

/-! ## Enumerated types (frontend/src/types/index.ts) -/

/-- ScenarioType union from types/index.ts. -/
inductive ScenarioType where
  | dispatch_checkin
  | emergency
deriving DecidableEq, Repr

/-- CallStatus union from types/index.ts; lifecycle comment in schema.sql line 52. -/
inductive CallStatus where
  | pending
  | in_progress
  | completed
  | failed
deriving DecidableEq, Repr

/-- CallType union from types/index.ts. -/
inductive CallType where
  | phone
  | web
deriving DecidableEq, Repr

/-- Terminal states of the call lifecycle: completed and failed. -/
def CallStatus.isTerminal : CallStatus → Bool
  | .completed => true
  | .failed => true
  | _ => false

/-- Database rendering of a scenario tag (schema.sql stores VARCHAR values). -/
def ScenarioType.dbString : ScenarioType → String
  | .dispatch_checkin => "dispatch_checkin"
  | .emergency => "emergency"

/-! ## Table rows (supabase/schema.sql)

Bookkeeping timestamps (created_at / updated_at, maintained by the
update_updated_at_column trigger) are not part of any claim and are left
out of the row records. -/

/-- Row of agent_configs (schema.sql lines 12-31).  NOT NULL columns are
non-optional fields; nullable columns are Option. -/
structure AgentConfigRow where
  id : String
  name : String
  description : Option String
  scenario_type : ScenarioType
  system_prompt : String
  initial_message : Option String
  enable_backchanneling : Bool
  enable_filler_words : Bool
  interruption_sensitivity : ℚ
  is_active : Bool
deriving DecidableEq, Repr

/-- Row of calls (schema.sql lines 38-64). -/
structure CallRow where
  id : String
  retell_call_id : Option String
  driver_name : String
  phone_number : Option String
  load_number : String
  agent_config_id : Option String
  status : CallStatus
  call_type : CallType
  started_at : Option Nat
  ended_at : Option Nat
  duration_seconds : Option Nat
deriving DecidableEq, Repr

/-- One utterance of a transcript (types/index.ts TranscriptUtterance). -/
structure TranscriptUtterance where
  role : String
  content : String
deriving DecidableEq, Repr

/-- Row of transcripts (schema.sql lines 71-83). -/
structure TranscriptRow where
  id : String
  call_id : Option String
  raw_transcript : Option String
  utterances : List TranscriptUtterance
deriving DecidableEq, Repr

/-- Row of structured_summaries (schema.sql lines 90-121).  The column
named partial in SQL is called partialFlag here because that word is a
Lean keyword. -/
structure SummaryRow where
  id : String
  call_id : Option String
  call_outcome : Option String
  driver_status : Option String
  current_location : Option String
  eta : Option String
  delay_reason : Option String
  unloading_status : Option String
  pod_reminder_acknowledged : Option Bool
  emergency_type : Option String
  safety_status : Option String
  injury_status : Option String
  emergency_location : Option String
  load_secure : Option Bool
  escalation_status : Option String
  raw_extraction : Option String
  partialFlag : Bool
deriving DecidableEq, Repr

/-! ## Schema-level constraints and indexes (schema.sql lines 123-130)

The only integrity constraints schema.sql declares on agent_configs are
the PRIMARY KEY on id and the NOT NULL columns (the latter are encoded in
the field types above).  The four indexes are created with CREATE INDEX,
i.e. none is a UNIQUE index. -/

/-- A CREATE INDEX declaration of the schema. -/
structure IndexDef where
  name : String
  table : String
  columns : List String
  unique : Bool
deriving DecidableEq, Repr

/-- The four indexes declared in schema.sql lines 127-130; all of them are
plain CREATE INDEX, so unique is false on each. -/
def schemaIndexes : List IndexDef :=
  [ { name := "idx_calls_status", table := "calls",
      columns := ["status"], unique := false },
    { name := "idx_calls_created_at", table := "calls",
      columns := ["created_at"], unique := false },
    { name := "idx_agent_configs_scenario", table := "agent_configs",
      columns := ["scenario_type"], unique := false },
    { name := "idx_agent_configs_active", table := "agent_configs",
      columns := ["is_active"], unique := false } ]

/-- Value of a named column of an agent_configs row, rendered as text, for
checking uniqueness constraints over column lists. -/
def agentConfigCol (r : AgentConfigRow) : String → String
  | "id" => r.id
  | "name" => r.name
  | "scenario_type" => r.scenario_type.dbString
  | "is_active" => toString r.is_active
  | "system_prompt" => r.system_prompt
  | _ => ""

/-- No two rows of the list agree on every column in cols. -/
def projDistinct (cols : List String) : List AgentConfigRow → Bool
  | [] => true
  | r :: rest =>
      rest.all (fun s => !(cols.map (agentConfigCol r) == cols.map (agentConfigCol s)))
        && projDistinct cols rest

/-- A table state satisfies every constraint schema.sql declares on
agent_configs: the PRIMARY KEY on id, plus the uniqueness requirement of
every UNIQUE index on the table (there is none). -/
def schemaAdmits (rows : List AgentConfigRow) : Bool :=
  projDistinct ["id"] rows
    && (schemaIndexes.filter (fun i => i.table == "agent_configs")).all
         (fun idx => !idx.unique || projDistinct idx.columns rows)

/-- At most one config per scenario tag is active: no later row shares a
scenario tag with an earlier active row while also being active. -/
def noTwoActivePerScenario : List AgentConfigRow → Bool
  | [] => true
  | c :: rest =>
      (!c.is_active
        || rest.all (fun d => !(d.scenario_type = c.scenario_type) || !d.is_active))
        && noTwoActivePerScenario rest

/-- Concrete agent_configs row used to test the schema constraints. -/
def cfgRowA : AgentConfigRow :=
  { id := "cfg-1", name := "Check-In v1", description := none,
    scenario_type := .dispatch_checkin, system_prompt := "p1",
    initial_message := none, enable_backchanneling := true,
    enable_filler_words := true, interruption_sensitivity := 1/2,
    is_active := true }

/-- A second active row with the same scenario tag as cfgRowA but a fresh
primary key. -/
def cfgRowB : AgentConfigRow :=
  { id := "cfg-2", name := "Check-In v2", description := none,
    scenario_type := .dispatch_checkin, system_prompt := "p2",
    initial_message := none, enable_backchanneling := true,
    enable_filler_words := true, interruption_sensitivity := 1/2,
    is_active := true }

/-! ## Whole-database state and call deletion (schema.sql)

transcripts.call_id and structured_summaries.call_id both reference
calls(id) ON DELETE CASCADE (schema.sql lines 73 and 92);
calls.agent_config_id references agent_configs(id) with no ON DELETE
action (line 50), so deleting a call never touches agent_configs. -/

structure Database where
  agent_configs : List AgentConfigRow
  calls : List CallRow
  transcripts : List TranscriptRow
  structured_summaries : List SummaryRow
deriving Repr

/-- Deleting a calls row, with the referential actions schema.sql
declares: cascade to transcripts and structured_summaries, no action on
agent_configs. -/
def deleteCall (db : Database) (callId : String) : Database :=
  { agent_configs := db.agent_configs,
    calls := db.calls.filter (fun c => !(c.id == callId)),
    transcripts := db.transcripts.filter (fun t => !(t.call_id == some callId)),
    structured_summaries :=
      db.structured_summaries.filter (fun s => !(s.call_id == some callId)) }

/-! ## Call Registry state machine

Modelled from the spec: the FastAPI backend holding the call status state
machine is not among the supplied sources.  Sections 4.1 and 5 of the spec
define it: started moves pending to in_progress and sets the start time,
and is a no-op when already in_progress; ended moves in_progress to the
vendor-reported outcome, records the end time and duration, and is a
no-op when already terminal; an ended arriving while still pending is
accepted and treated as started now and ended now; any other event at a
terminal state is an InvalidTransitionError that is logged and discarded
without changing state. -/

/-- Vendor-reported outcome carried by the ended event. -/
inductive EndOutcome where
  | completed
  | failed
deriving DecidableEq, Repr

/-- The terminal status a vendor outcome maps to. -/
def EndOutcome.toStatus : EndOutcome → CallStatus
  | .completed => .completed
  | .failed => .failed

/-- Modelled from the spec: inbound lifecycle events of section 4.1, with
their vendor timestamps as payload. -/
inductive LifecycleEvent where
  | started (timestamp : Nat)
  | ended (outcome : EndOutcome) (timestamp : Nat)
deriving DecidableEq, Repr

/-- Modelled from the spec: the transition function of section 4.1
(extended by the out-of-order rule of section 5) applied to one call. -/
def applyCallEvent (c : CallRow) (e : LifecycleEvent) : CallRow :=
  match e with
  | .started t =>
      match c.status with
      | .pending => { c with status := .in_progress, started_at := some t }
      | .in_progress => c
      | _ => c
  | .ended outcome t =>
      match c.status with
      | .in_progress =>
          { c with status := outcome.toStatus, ended_at := some t,
                   duration_seconds := some (t - c.started_at.getD t) }
      | .pending =>
          { c with status := outcome.toStatus, started_at := some t,
                   ended_at := some t, duration_seconds := some 0 }
      | _ => c

/-- Modelled from the spec: the Call Registry applies a lifecycle event to
every call carrying the given external call id; an event whose external id
matches no call is a logged inconsistency with no state effect. -/
def applyLifecycleEvent (reg : List CallRow) (extId : String)
    (e : LifecycleEvent) : List CallRow :=
  reg.map fun c =>
    if c.retell_call_id = some extId then applyCallEvent c e else c

/-- The status histories enumerated by the claim: pending to in_progress
to completed or failed, or pending directly to failed. -/
def claimedStep (a b : CallStatus) : Bool :=
  a == b
    || (a == .pending && b == .in_progress)
    || (a == .pending && b == .failed)
    || (a == .in_progress && b == .completed)
    || (a == .in_progress && b == .failed)

/-- The status steps the modelled transition function can actually take:
claimedStep plus pending directly to completed, reachable when an ended
event with a successful outcome arrives before started. -/
def amendedStep (a b : CallStatus) : Bool :=
  claimedStep a b || (a == .pending && b == .completed)

/-- A concrete pending call used to exercise the state machine. -/
def pendingCall : CallRow :=
  { id := "call-1", retell_call_id := some "ext-1",
    driver_name := "J. Doe", phone_number := none, load_number := "L-100",
    agent_config_id := some "cfg-1", status := .pending,
    call_type := .web, started_at := none, ended_at := none,
    duration_seconds := none }

/-- A concrete completed call used to exercise terminal-state behaviour. -/
def completedCall : CallRow :=
  { pendingCall with id := "call-2", retell_call_id := some "ext-2",
                     status := .completed, started_at := some 3,
                     ended_at := some 9, duration_seconds := some 6 }

/-! ## Extraction Reconciler

Modelled from the spec: the backend reconciler is not among the supplied
sources.  Section 4.4: the language-model path leaves unpopulated fields
null and marks the summary partial exactly when every scenario-required
field is missing; the deterministic fallback marks it partial
unconditionally; a second reconciliation for the same call may overwrite a
partial summary but never a complete one. -/

/-- Check-in extraction fields; the scenario-required set from section 3
is status, location, eta and delay reason. -/
structure CheckinFields where
  driver_status : Option String
  current_location : Option String
  eta : Option String
  delay_reason : Option String
deriving DecidableEq, Repr

/-- Emergency extraction fields; the scenario-required set from section 3
is emergency type, safety status and escalation status. -/
structure EmergencyFields where
  emergency_type : Option String
  safety_status : Option String
  escalation_status : Option String
deriving DecidableEq, Repr

/-- Scenario-tagged extraction output (spec section 9 asks for a tagged
variant per scenario). -/
inductive ExtractionFields where
  | checkin (f : CheckinFields)
  | emergency (f : EmergencyFields)
deriving DecidableEq, Repr

/-- The ordered list of scenario-required fields of an extraction. -/
def requiredFields : ExtractionFields → List (Option String)
  | .checkin f => [f.driver_status, f.current_location, f.eta, f.delay_reason]
  | .emergency f => [f.emergency_type, f.safety_status, f.escalation_status]

/-- Modelled from the spec: the StructuredSummary a reconciliation
produces (the partial column is called partialFlag, see SummaryRow). -/
structure ExtractionSummary where
  callId : String
  fields : ExtractionFields
  rawExtraction : Option String
  partialFlag : Bool
deriving DecidableEq, Repr

/-- Modelled from the spec: summary built on the language-model path;
partial is set exactly when every scenario-required field is missing. -/
def mkLlmSummary (callId : String) (raw : Option String)
    (f : ExtractionFields) : ExtractionSummary :=
  { callId := callId, fields := f, rawExtraction := raw,
    partialFlag :=
      match f with
      | .checkin c =>
          c.driver_status.isNone && c.current_location.isNone
            && c.eta.isNone && c.delay_reason.isNone
      | .emergency e =>
          e.emergency_type.isNone && e.safety_status.isNone
            && e.escalation_status.isNone }

/-- Modelled from the spec: summary built on the deterministic fallback
path; partial is set unconditionally. -/
def mkFallbackSummary (callId : String) (f : ExtractionFields) :
    ExtractionSummary :=
  { callId := callId, fields := f, rawExtraction := none,
    partialFlag := true }

/-- Modelled from the spec: row-level reconciliation store.  A fresh
summary replaces a missing or partial stored summary and never a complete
one. -/
def reconcileStore (stored : Option ExtractionSummary)
    (fresh : ExtractionSummary) : Option ExtractionSummary :=
  match stored with
  | none => some fresh
  | some s => if s.partialFlag then some fresh else some s

/-! ## Config Registry activation

Modelled from the spec: the backend activate endpoint is not among the
supplied sources (the frontend only posts to it through
useActivateConfig).  Section 4.5: activate(id) sets active on the given
config and clears active on every other config sharing its scenario tag
within the same logical operation; an unknown id is a NotFoundError and
changes nothing. -/

def activateConfig (cfgs : List AgentConfigRow) (id : String) :
    List AgentConfigRow :=
  match cfgs.find? (fun c => c.id == id) with
  | none => cfgs
  | some target =>
      cfgs.map fun c =>
        if c.id == id then { c with is_active := true }
        else if c.scenario_type == target.scenario_type then
          { c with is_active := false }
        else c

/-! ## Call triggering -/

/-- CallTriggerRequest from types/index.ts. -/
structure CallTriggerRequest where
  driver_name : String
  phone_number : Option String
  load_number : String
  scenario_type : ScenarioType
  call_type : CallType
deriving DecidableEq, Repr

/-- CallTriggerResponse from types/index.ts; access_token is only present
for web calls. -/
structure CallTriggerResponse where
  call_id : String
  retell_call_id : String
  status : CallStatus
  call_type : CallType
  access_token : Option String
deriving DecidableEq, Repr

/-- Errors the trigger path can surface to the operator (spec section 7). -/
inductive CreateError where
  | validationError
  | vendorUnavailable (reason : String)
deriving DecidableEq, Repr

/-- Outcome of the outbound vendor call-trigger request: acceptance
carries the external call id and an access token, rejection a reason. -/
inductive VendorResult where
  | accepted (extId : String) (token : String)
  | rejected (reason : String)
deriving DecidableEq, Repr

/-- Modelled from the spec: the create operation of section 4.3.  It
validates that a contact number is present exactly when the channel is
phone; on failure it returns ValidationError without touching the call
table.  Otherwise it inserts a pending call, calls the vendor, and on
acceptance records the external call id and answers with it, including an
access token exactly for web calls; on rejection the call is stored as
failed and VendorUnavailable is surfaced. -/
def createCall (req : CallTriggerRequest) (configId : Option String)
    (vendor : VendorResult) (newId : String) (st : List CallRow) :
    List CallRow × Except CreateError CallTriggerResponse :=
  if req.call_type = CallType.phone ∧ req.phone_number = none then
    (st, .error .validationError)
  else
    match vendor with
    | .accepted extId token =>
        let call : CallRow :=
          { id := newId, retell_call_id := some extId,
            driver_name := req.driver_name,
            phone_number := req.phone_number,
            load_number := req.load_number,
            agent_config_id := configId, status := .pending,
            call_type := req.call_type, started_at := none,
            ended_at := none, duration_seconds := none }
        (st ++ [call],
         .ok { call_id := newId, retell_call_id := extId,
               status := .pending, call_type := req.call_type,
               access_token :=
                 if req.call_type = CallType.web then some token else none })
    | .rejected reason =>
        let call : CallRow :=
          { id := newId, retell_call_id := none,
            driver_name := req.driver_name,
            phone_number := req.phone_number,
            load_number := req.load_number,
            agent_config_id := configId, status := .failed,
            call_type := req.call_type, started_at := none,
            ended_at := none, duration_seconds := none }
        (st ++ [call], .error (.vendorUnavailable reason))

/-! ## Frontend trigger gate (CallsPage, src/unnamed/part_004) -/

/-- TriggerFormData from the CallsPage component. -/
structure TriggerFormData where
  driverName : String
  phoneNumber : String
  loadNumber : String
  scenarioType : ScenarioType
  callType : CallType
deriving DecidableEq, Repr

/-- canTrigger from the CallsPage component (part_004 lines 117-122):
JavaScript string truthiness of the trimmed inputs becomes a non-empty
check here. -/
def canTrigger (fd : TriggerFormData) (hasDispatchConfig : Bool)
    (hasEmergencyConfig : Bool) (isWebCallActive : Bool) : Bool :=
  (fd.driverName.trim != "")
    && (fd.loadNumber.trim != "")
    && (fd.callType == CallType.web || fd.phoneNumber.trim != "")
    && (if fd.scenarioType == ScenarioType.dispatch_checkin then
          hasDispatchConfig
        else hasEmergencyConfig)
    && !isWebCallActive

/-! ## Interruption-sensitivity labels (two independent frontend copies) -/

/-- valueFormatter passed to the Slider by the configuration page
(part_003 lines 321-325). -/
def sliderSensitivityLabel (v : ℚ) : String :=
  if v ≤ 0.3 then "Low"
  else if v ≤ 0.6 then "Medium"
  else "High"

/-- Sensitivity label computed inline by the DashboardPage voice-settings
overview (templates.ts file, DashboardPage lines 413-420). -/
def dashboardSensitivityLabel (sensitivity : ℚ) : String :=
  if sensitivity ≤ 0.3 then "Low"
  else if sensitivity ≤ 0.6 then "Medium"
  else "High"

/-! ## Helper lemmas -/

/-- applyCallEvent never changes the external call id of a row. -/
theorem applyCallEvent_retell (c : CallRow) (e : LifecycleEvent) :
    (applyCallEvent c e).retell_call_id = c.retell_call_id := by
  cases e <;> rcases h : c.status <;> simp [applyCallEvent, h]

/-- applyCallEvent is idempotent on a single call row. -/
theorem applyCallEvent_idem (c : CallRow) (e : LifecycleEvent) :
    applyCallEvent (applyCallEvent c e) e = applyCallEvent c e := by
  cases e with
  | started t => rcases h : c.status <;> simp [applyCallEvent, h]
  | ended o t =>
      rcases h : c.status <;> cases o <;>
        simp [applyCallEvent, h, EndOutcome.toStatus]

/-- Characterization of the rows of activateConfig when the target id is
found: each output row is the target switched on, a same-scenario row
switched off, or an unrelated row left alone. -/
theorem mem_activateConfig (cfgs : List AgentConfigRow) (id : String)
    (target : AgentConfigRow)
    (hfind : cfgs.find? (fun c => c.id == id) = some target)
    (c2 : AgentConfigRow) (hc2 : c2 ∈ activateConfig cfgs id) :
    ∃ a ∈ cfgs,
      (a.id = id ∧ c2 = { a with is_active := true })
      ∨ (a.id ≠ id ∧ a.scenario_type = target.scenario_type
          ∧ c2 = { a with is_active := false })
      ∨ (a.id ≠ id ∧ a.scenario_type ≠ target.scenario_type ∧ c2 = a) := by
  unfold activateConfig at hc2
  rw [hfind] at hc2
  rw [List.mem_map] at hc2
  obtain ⟨a, ha, rfl⟩ := hc2
  refine ⟨a, ha, ?_⟩
  by_cases h1 : a.id = id
  · left
    exact ⟨h1, by simp [h1]⟩
  · by_cases h2 : a.scenario_type = target.scenario_type
    · right; left
      exact ⟨h1, h2, by simp [h1, h2]⟩
    · right; right
      exact ⟨h1, h2, by simp [h1, h2]⟩

/-! ## Claim C1 -/

/-- C1 counterexample: the schema itself admits two distinct rows that
share the scenario tag and are both active; the only declared constraints
on agent_configs (primary key and the uniqueness requirement of unique
indexes, of which the schema declares none) accept the second insert. -/
theorem schemaAdmits_two_active_same_scenario :
    schemaAdmits [cfgRowA] = true
    ∧ schemaAdmits [cfgRowA, cfgRowB] = true
    ∧ noTwoActivePerScenario [cfgRowA, cfgRowB] = false := by
  refine ⟨by decide, by decide, by decide⟩

/-- C1 amended: schema.sql declares no unique index on agent_configs (its
index on is_active is a plain index), so the at-most-one-active invariant
is not enforced at the data layer; it is maintained by the application
activate operation, after which any active config of the target scenario
is the activated one. -/
theorem active_uniqueness_not_in_schema_but_in_activate :
    ((schemaIndexes.filter (fun i => i.table == "agent_configs")).all
        (fun i => !i.unique) = true)
    ∧ (∀ cfgs id target, cfgs.find? (fun c => c.id == id) = some target →
        ∀ c ∈ activateConfig cfgs id,
          c.scenario_type = target.scenario_type → c.is_active = true →
            c.id = id) := by
  refine ⟨by decide, ?_⟩
  intro cfgs id target hfind c hc hsc hact
  obtain ⟨a, _, hcase⟩ := mem_activateConfig cfgs id target hfind c hc
  rcases hcase with ⟨hid, rfl⟩ | ⟨hid, hscen, rfl⟩ | ⟨hid, hscen, rfl⟩
  · simpa using hid
  · simp at hact
  · exact absurd hsc hscen

/-- C1 witness: activating cfg-1 in a concrete registry leaves cfgRowA
(the target, whose id is cfg-1) as the only active check-in row. -/
theorem active_uniqueness_witness : cfgRowA.id = "cfg-1" :=
  active_uniqueness_not_in_schema_but_in_activate.2
    [cfgRowA, cfgRowB] "cfg-1" cfgRowA rfl cfgRowA (List.Mem.head _)
    rfl rfl

/-! ## Claim C2 -/

/-- C2 counterexample: an ended event with a successful outcome arriving
while the call is still pending is accepted (spec section 5) and moves the
status directly from pending to completed, a step outside the histories
the claim enumerates. -/
theorem pending_to_completed_reachable :
    (applyCallEvent pendingCall (.ended .completed 7)).status
        = CallStatus.completed
    ∧ claimedStep .pending .completed = false := by
  refine ⟨by decide, by decide⟩

/-- C2 amended: terminal states absorb every further lifecycle event (the
whole row is left unchanged), and every step of the transition function
follows pending to in_progress to completed or failed, pending to failed,
or pending directly to completed or failed when ended arrives before
started; registry steps only ever apply the per-call transition
function. -/
theorem callStatus_terminal_absorbing :
    (∀ c e, c.status.isTerminal = true → applyCallEvent c e = c)
    ∧ (∀ c e, amendedStep c.status (applyCallEvent c e).status = true)
    ∧ (∀ reg extId e, ∀ c2 ∈ applyLifecycleEvent reg extId e,
        ∃ c ∈ reg, c2 = applyCallEvent c e ∨ c2 = c) := by
  refine ⟨?_, ?_, ?_⟩
  · intro c e h
    cases e <;> rcases hs : c.status <;>
      simp_all [applyCallEvent, CallStatus.isTerminal]
  · intro c e
    cases e with
    | started t =>
        rcases hs : c.status <;>
          simp [applyCallEvent, hs, amendedStep, claimedStep]
    | ended o t =>
        rcases hs : c.status <;> cases o <;>
          simp [applyCallEvent, hs, amendedStep, claimedStep,
                EndOutcome.toStatus]
  · intro reg extId e c2 hc2
    unfold applyLifecycleEvent at hc2
    rw [List.mem_map] at hc2
    obtain ⟨c, hc, rfl⟩ := hc2
    refine ⟨c, hc, ?_⟩
    by_cases hid : c.retell_call_id = some extId <;> simp [hid]

/-- C2 witness: a completed call is left unchanged by a later started
event. -/
theorem callStatus_terminal_absorbing_witness :
    applyCallEvent completedCall (.started 3) = completedCall :=
  callStatus_terminal_absorbing.1 completedCall (.started 3) (by decide)

/-! ## Claim C3 -/

/-- C3: applying the same lifecycle event (same external call id, same
event type, same payload) twice to the Call Registry produces the same
state as applying it once. -/
theorem applyLifecycleEvent_idempotent (reg : List CallRow) (extId : String)
    (e : LifecycleEvent) :
    applyLifecycleEvent (applyLifecycleEvent reg extId e) extId e
      = applyLifecycleEvent reg extId e := by
  unfold applyLifecycleEvent
  rw [List.map_map]
  apply List.map_congr_left
  intro c _
  by_cases hid : c.retell_call_id = some extId
  · simp [Function.comp, hid, applyCallEvent_retell, applyCallEvent_idem]
  · simp [Function.comp, hid]

/-! ## Claim C4 -/

/-- C4: a stored complete summary is never replaced by a second
reconciliation attempt; a stored partial summary is replaced; a missing
summary is written. -/
theorem reconcile_never_overwrites_complete :
    (∀ s fresh, s.partialFlag = false →
        reconcileStore (some s) fresh = some s)
    ∧ (∀ s fresh, s.partialFlag = true →
        reconcileStore (some s) fresh = some fresh)
    ∧ (∀ fresh, reconcileStore none fresh = some fresh) := by
  refine ⟨?_, ?_, ?_⟩ <;> intros <;> simp [reconcileStore, *]

/-- C4 witness: a concrete complete check-in summary survives a second
reconciliation that produced a fallback summary. -/
theorem reconcile_never_overwrites_complete_witness :
    reconcileStore
        (some (mkLlmSummary "call-1" none
          (.checkin ⟨some "Driving", none, some "2pm", none⟩)))
        (mkFallbackSummary "call-1" (.checkin ⟨none, none, none, none⟩))
      = some (mkLlmSummary "call-1" none
          (.checkin ⟨some "Driving", none, some "2pm", none⟩)) :=
  reconcile_never_overwrites_complete.1
    (mkLlmSummary "call-1" none
      (.checkin ⟨some "Driving", none, some "2pm", none⟩))
    (mkFallbackSummary "call-1" (.checkin ⟨none, none, none, none⟩))
    (by decide)

/-! ## Claim C5 -/

/-- C5: on the language-model path the partial flag is set exactly when
every scenario-required field is missing, so a summary with at least one
populated required field is not partial; the fallback path sets the
partial flag unconditionally. -/
theorem llm_partial_iff_all_required_missing :
    (∀ cid raw f, (mkLlmSummary cid raw f).partialFlag = true
        ↔ ∀ v ∈ requiredFields f, v = none)
    ∧ (∀ cid raw f, (∃ v ∈ requiredFields f, v ≠ none) →
        (mkLlmSummary cid raw f).partialFlag = false)
    ∧ (∀ cid f, (mkFallbackSummary cid f).partialFlag = true) := by
  have hiff : ∀ cid raw f, (mkLlmSummary cid raw f).partialFlag = true
      ↔ ∀ v ∈ requiredFields f, v = none := by
    intro cid raw f
    cases f with
    | checkin c =>
        simp [mkLlmSummary, requiredFields, Option.isNone_iff_eq_none]
        tauto
    | emergency e =>
        simp [mkLlmSummary, requiredFields, Option.isNone_iff_eq_none]
        tauto
  refine ⟨hiff, ?_, ?_⟩
  · intro cid raw f hex
    obtain ⟨v, hv, hne⟩ := hex
    cases hp : (mkLlmSummary cid raw f).partialFlag
    · rfl
    · exact absurd ((hiff cid raw f).mp hp v hv) hne
  · intro cid f
    rfl

/-- C5 witness: a check-in extraction with a populated status and eta but
missing location and delay reason is not marked partial. -/
theorem llm_partial_iff_all_required_missing_witness :
    (mkLlmSummary "call-1" none
        (.checkin ⟨some "Driving", none, some "2pm", none⟩)).partialFlag
      = false :=
  llm_partial_iff_all_required_missing.2.1 "call-1" none
    (.checkin ⟨some "Driving", none, some "2pm", none⟩)
    ⟨some "Driving", by decide, by decide⟩

/-! ## Claim C6 -/

/-- C6: the trigger create operation fails with ValidationError exactly
when the channel is phone and the contact number is missing, and then
leaves the call table untouched; the frontend gate likewise refuses a
phone call with a blank number and ignores the number entirely for web
calls. -/
theorem contact_number_mandatory_iff_phone :
    (∀ req configId vendor newId st,
        ((createCall req configId vendor newId st).2
            = .error .validationError
          ↔ (req.call_type = CallType.phone ∧ req.phone_number = none)))
    ∧ (∀ req configId vendor newId st,
        req.call_type = CallType.phone → req.phone_number = none →
          createCall req configId vendor newId st
            = (st, .error .validationError))
    ∧ (∀ fd hd he wa, fd.callType = CallType.phone →
        fd.phoneNumber.trim = "" → canTrigger fd hd he wa = false)
    ∧ (∀ (fd : TriggerFormData) (p q : String) (hd he wa : Bool),
        fd.callType = CallType.web →
          canTrigger { fd with phoneNumber := p } hd he wa
            = canTrigger { fd with phoneNumber := q } hd he wa) := by
  refine ⟨?_, ?_, ?_, ?_⟩
  · intro req configId vendor newId st
    unfold createCall
    by_cases h : req.call_type = CallType.phone ∧ req.phone_number = none
    · simp [h]
    · rw [if_neg h]
      cases vendor <;> simp [h]
  · intro req configId vendor newId st h1 h2
    unfold createCall
    rw [if_pos ⟨h1, h2⟩]
  · intro fd hd he wa hphone hempty
    simp [canTrigger, hphone, hempty]
  · intro fd p q hd he wa hweb
    simp [canTrigger, hweb]

/-- C6 witness: a concrete phone-channel request with no number is
rejected with ValidationError and creates no call row. -/
theorem contact_number_mandatory_iff_phone_witness :
    createCall
        { driver_name := "Mike", phone_number := none,
          load_number := "L-1", scenario_type := .dispatch_checkin,
          call_type := .phone }
        none (.accepted "ext-9" "tok") "id-1" []
      = ([], .error .validationError) :=
  contact_number_mandatory_iff_phone.2.1
    { driver_name := "Mike", phone_number := none, load_number := "L-1",
      scenario_type := .dispatch_checkin, call_type := .phone }
    none (.accepted "ext-9" "tok") "id-1" [] rfl rfl

/-! ## Claim C7 -/

/-- C7: when the id is present, activation makes every row carrying that
id active and every other row of the target scenario inactive, within the
one operation. -/
theorem activateConfig_target_active_others_cleared :
    ∀ cfgs id target, cfgs.find? (fun c => c.id == id) = some target →
      ∀ c ∈ activateConfig cfgs id,
        (c.id = id → c.is_active = true)
        ∧ (c.id ≠ id → c.scenario_type = target.scenario_type →
            c.is_active = false) := by
  intro cfgs id target hfind c hc
  obtain ⟨a, _, hcase⟩ := mem_activateConfig cfgs id target hfind c hc
  rcases hcase with ⟨hid, rfl⟩ | ⟨hid, hscen, rfl⟩ | ⟨hid, hscen, rfl⟩
  · exact ⟨fun _ => rfl, fun hne _ => absurd hid (by simpa using hne)⟩
  · exact ⟨fun heq => absurd heq (by simpa using hid), fun _ _ => rfl⟩
  · exact ⟨fun heq => absurd heq hid, fun _ hsc => absurd hsc hscen⟩

/-- C7 witness: activating cfg-2 deactivates the previously active
check-in config cfgRowA. -/
theorem activateConfig_target_active_others_cleared_witness :
    ({ cfgRowA with is_active := false } : AgentConfigRow).is_active
      = false :=
  (activateConfig_target_active_others_cleared
      [cfgRowA, cfgRowB] "cfg-2" cfgRowB rfl
      { cfgRowA with is_active := false } (List.Mem.head _)).2
    (by decide) rfl

/-! ## Claim C8 -/

/-- C8: deleting a call removes every transcript and structured summary
referencing it (the cascading foreign keys of schema.sql) and removes the
call row itself, while the agent_configs table is left untouched. -/
theorem deleteCall_cascade_and_config_frame (db : Database) (cid : String) :
    (deleteCall db cid).agent_configs = db.agent_configs
    ∧ (∀ t ∈ (deleteCall db cid).transcripts, t.call_id ≠ some cid)
    ∧ (∀ s ∈ (deleteCall db cid).structured_summaries,
        s.call_id ≠ some cid)
    ∧ (∀ c ∈ (deleteCall db cid).calls, c.id ≠ cid) := by
  refine ⟨rfl, ?_, ?_, ?_⟩ <;>
    · intro x hx
      simp [deleteCall, List.mem_filter] at hx
      simpa using hx.2

/-- C8 witness: deleting call-1 from a concrete database keeps the
transcript of call-2, and every surviving transcript indeed references a
different call. -/
theorem deleteCall_cascade_and_config_frame_witness :
    ({ id := "t-1", call_id := some "call-2", raw_transcript := some "hi",
       utterances := [] } : TranscriptRow).call_id ≠ some "call-1" :=
  (deleteCall_cascade_and_config_frame
      { agent_configs := [], calls := [pendingCall],
        transcripts :=
          [{ id := "t-1", call_id := some "call-2",
             raw_transcript := some "hi", utterances := [] }],
        structured_summaries := [] }
      "call-1").2.1
    { id := "t-1", call_id := some "call-2", raw_transcript := some "hi",
      utterances := [] }
    (by decide)

/-! ## Claim C9 -/

/-- C9: whenever a trigger succeeds (the create operation answers with an
ok response after vendor acceptance), the response carries the external
call id the vendor issued, and it carries an access token exactly when
the requested channel is web. -/
theorem trigger_response_external_id_and_web_token :
    ∀ req configId newId st extId token resp,
      (createCall req configId (.accepted extId token) newId st).2
          = .ok resp →
        resp.retell_call_id = extId
        ∧ (resp.access_token ≠ none ↔ req.call_type = CallType.web) := by
  intro req configId newId st extId token resp h
  unfold createCall at h
  by_cases hval : req.call_type = CallType.phone ∧ req.phone_number = none
  · rw [if_pos hval] at h
    exact absurd h (by simp)
  · rw [if_neg hval] at h
    simp at h
    subst h
    refine ⟨rfl, ?_⟩
    by_cases hw : req.call_type = CallType.web <;> simp [hw]

/-- C9 witness: a concrete accepted web trigger answers with the vendor
call id ext-1 and a non-null access token. -/
theorem trigger_response_external_id_and_web_token_witness :
    ({ call_id := "id-1", retell_call_id := "ext-1", status := .pending,
       call_type := .web, access_token := some "tok" } :
        CallTriggerResponse).retell_call_id = "ext-1"
    ∧ (({ call_id := "id-1", retell_call_id := "ext-1", status := .pending,
          call_type := .web, access_token := some "tok" } :
            CallTriggerResponse).access_token ≠ none
        ↔ ({ driver_name := "J. Doe", phone_number := none,
             load_number := "L-100", scenario_type := .dispatch_checkin,
             call_type := .web } : CallTriggerRequest).call_type
            = CallType.web) :=
  trigger_response_external_id_and_web_token
    { driver_name := "J. Doe", phone_number := none,
      load_number := "L-100", scenario_type := .dispatch_checkin,
      call_type := .web }
    none "id-1" [] "ext-1" "tok"
    { call_id := "id-1", retell_call_id := "ext-1", status := .pending,
      call_type := .web, access_token := some "tok" }
    rfl

/-! ## Claim C10 -/

/-- C10: the configuration-page slider label function and the dashboard
voice-settings label function agree on every sensitivity value in the
unit interval, computing Low up to 0.3, Medium up to 0.6 and High
above. -/
theorem sensitivity_label_functions_agree :
    ∀ v : ℚ, 0 ≤ v → v ≤ 1 →
      sliderSensitivityLabel v = dashboardSensitivityLabel v
      ∧ (v ≤ 0.3 → sliderSensitivityLabel v = "Low")
      ∧ (0.3 < v → v ≤ 0.6 → sliderSensitivityLabel v = "Medium")
      ∧ (0.6 < v → sliderSensitivityLabel v = "High") := by
  intro v h0 h1
  refine ⟨rfl, ?_, ?_, ?_⟩
  · intro h
    simp [sliderSensitivityLabel, h]
  · intro h2 h3
    rw [sliderSensitivityLabel, if_neg (not_le.mpr h2), if_pos h3]
  · intro h2
    have h3 : ¬ v ≤ (0.6 : ℚ) := not_le.mpr h2
    have h4 : ¬ v ≤ (0.3 : ℚ) := by
      refine not_le.mpr (lt_trans ?_ h2)
      norm_num
    rw [sliderSensitivityLabel, if_neg h4, if_neg h3]

/-- C10 witness: both label functions give Medium at sensitivity 0.5. -/
theorem sensitivity_label_functions_agree_witness :
    sliderSensitivityLabel (1/2) = dashboardSensitivityLabel (1/2)
    ∧ sliderSensitivityLabel (1/2) = "Medium" :=
  ⟨(sensitivity_label_functions_agree (1/2) (by norm_num) (by norm_num)).1,
   (sensitivity_label_functions_agree (1/2) (by norm_num)
      (by norm_num)).2.2.1 (by norm_num) (by norm_num)⟩

end VoiceAgent
